import Mathlib

/-!
Verification of the salary calculation core of the hr_salary repository
(`src/salaryCalculator.ts`): the progressive tax engine `calculateAnnualTax`
over the static `TAX_SLABS` table, and the monthly salary breakdown
`calculateMonthlySalary`.  JavaScript numbers are modelled as rationals;
the loops over the slab table and the attendance list are modelled as
structural recursion / left folds with the same accumulator state.
-/

/-- A tax slab: `upto` is the inclusive upper bound of the bracket
(`none` for the final unbounded slab) and `rate` its marginal rate. -/
structure TaxSlab where
  upto : Option ℚ
  rate : ℚ
deriving DecidableEq, Repr

/-- The static slab table from the source:
0–250000 at 0, 250000–500000 at 0.05, 500000–1000000 at 0.2,
unbounded above 1000000 at 0.3. -/
def TAX_SLABS : List TaxSlab :=
  [ { upto := some 250000, rate := 0 },
    { upto := some 500000, rate := 5/100 },
    { upto := some 1000000, rate := 2/10 },
    { upto := none, rate := 3/10 } ]

/-- The loop body of `calculateAnnualTax`: walks the slab list carrying
`remainingIncome`, the accumulated `tax`, and `lastUpper`.  A bounded slab
taxes `max 0 (min remainingIncome (upto - lastUpper))` at its rate and
stops once the remaining income is `≤ 0`; the unbounded slab taxes all
remaining income and stops. -/
def taxLoop : List TaxSlab → ℚ → ℚ → ℚ → ℚ
  | [], _, tax, _ => tax
  | slab :: rest, remainingIncome, tax, lastUpper =>
    match slab.upto with
    | some u =>
      let taxableIncome := max 0 (min remainingIncome (u - lastUpper))
      let tax := tax + taxableIncome * slab.rate
      let remainingIncome := remainingIncome - taxableIncome
      if remainingIncome ≤ 0 then tax
      else taxLoop rest remainingIncome tax u
    | none => tax + remainingIncome * slab.rate

/-- `calculateAnnualTax` from the source: progressive tax of an annual
income over `TAX_SLABS`. -/
def calculateAnnualTax (annualIncome : ℚ) : ℚ :=
  taxLoop TAX_SLABS annualIncome 0 0

/-- One attendance record as consumed by the calculator (the `date`
field of the source record never influences the computation and is
omitted). -/
structure AttendanceRecord where
  hoursWorked : ℚ
deriving DecidableEq, Repr

/-- The parameter object of `calculateMonthlySalary`; `otherDeductions`
defaults to `0` when omitted, as in the source destructuring. -/
structure SalaryCalculationParams where
  basic : ℚ
  hra : ℚ
  allowances : ℚ
  workingDaysInMonth : ℚ
  attendances : List AttendanceRecord
  otherDeductions : ℚ := 0
deriving DecidableEq, Repr

/-- The salary breakdown returned by `calculateMonthlySalary`. -/
structure SalaryBreakdown where
  grossMonthly : ℚ
  fullDays : ℕ
  halfDays : ℕ
  dailyWage : ℚ
  totalSalary : ℚ
  tax : ℚ
  pf : ℚ
  otherDeductions : ℚ
  netSalary : ℚ
deriving DecidableEq, Repr

/-- The attendance-classification loop of the source: a record with
`hoursWorked ≥ 8` increments the full-day count, otherwise one with
`hoursWorked > 0` increments the half-day count, otherwise neither. -/
def countDays (attendances : List AttendanceRecord) : ℕ × ℕ :=
  attendances.foldl
    (fun fh a =>
      if a.hoursWorked ≥ 8 then (fh.1 + 1, fh.2)
      else if a.hoursWorked > 0 then (fh.1, fh.2 + 1)
      else fh)
    (0, 0)

/-- `calculateMonthlySalary` from the source, step for step. -/
def calculateMonthlySalary (params : SalaryCalculationParams) : SalaryBreakdown :=
  let grossMonthly := params.basic + params.hra + params.allowances
  let pf := params.basic * (12/100)
  let fh := countDays params.attendances
  let fullDays := fh.1
  let halfDays := fh.2
  let dailyWage := grossMonthly / params.workingDaysInMonth
  let fullDaySalary := dailyWage
  let halfDaySalary := dailyWage / 2
  let totalSalary := (fullDays : ℚ) * fullDaySalary + (halfDays : ℚ) * halfDaySalary
  let annualIncome := grossMonthly * 12
  let annualTax := calculateAnnualTax annualIncome
  let monthlyTax := annualTax / 12
  let netSalary := totalSalary - monthlyTax - pf - params.otherDeductions
  { grossMonthly := grossMonthly
    fullDays := fullDays
    halfDays := halfDays
    dailyWage := dailyWage
    totalSalary := totalSalary
    tax := monthlyTax
    pf := pf
    otherDeductions := params.otherDeductions
    netSalary := netSalary }

/-- The default slab table exactly as the spec describes it, for
comparison with the source table. -/
def specSlabTable : List TaxSlab :=
  [ { upto := some 250000, rate := 0 },
    { upto := some 500000, rate := 5/100 },
    { upto := some 1000000, rate := 2/10 },
    { upto := none, rate := 3/10 } ]

/-- Bool-valued full-day test: the source's first branch condition
`hoursWorked >= 8`. -/
def isFullDay (a : AttendanceRecord) : Bool := decide (8 ≤ a.hoursWorked)

/-- Bool-valued half-day test: the source's second branch condition,
reached when the first fails: `hoursWorked > 0` and not `≥ 8`. -/
def isHalfDay (a : AttendanceRecord) : Bool :=
  decide (¬ 8 ≤ a.hoursWorked ∧ 0 < a.hoursWorked)

/-- Bool-valued presence test: positive hours worked. -/
def isPresent (a : AttendanceRecord) : Bool := decide (0 < a.hoursWorked)

/-- Closed form of `calculateAnnualTax` on non-negative inputs, derived
by tracing the loop over the concrete `TAX_SLABS`. -/
def taxClosedForm (x : ℚ) : ℚ :=
  if x ≤ 250000 then 0
  else if x ≤ 500000 then (x - 250000) * (5/100)
  else if x ≤ 1000000 then 12500 + (x - 500000) * (2/10)
  else 112500 + (x - 1000000) * (3/10)

/-- The bounded upper bounds of a slab table, in order. -/
def boundedUppers (slabs : List TaxSlab) : List ℚ :=
  slabs.filterMap (fun s => s.upto)

/-- The end-to-end scenario input of the spec: basic 50000, hra 10000,
allowances 5000, 22 working days, 20 full-day records (8 hours) and two
half-day records (4 hours), other deductions 1000. -/
def scenarioParams : SalaryCalculationParams :=
  { basic := 50000
    hra := 10000
    allowances := 5000
    workingDaysInMonth := 22
    attendances := List.replicate 20 { hoursWorked := 8 } ++
      List.replicate 2 { hoursWorked := 4 }
    otherDeductions := 1000 }

/-- The step function of the attendance fold, once unfolded. -/
theorem countDays_foldl (l : List AttendanceRecord) (fh : ℕ × ℕ) :
    l.foldl
      (fun fh a =>
        if a.hoursWorked ≥ 8 then (fh.1 + 1, fh.2)
        else if a.hoursWorked > 0 then (fh.1, fh.2 + 1)
        else fh)
      fh =
    (fh.1 + (l.filter isFullDay).length, fh.2 + (l.filter isHalfDay).length) := by
  induction l generalizing fh with
  | nil => simp
  | cons a l ih =>
    simp only [List.foldl_cons, List.filter_cons, ih]
    by_cases h8 : 8 ≤ a.hoursWorked
    · simp [isFullDay, isHalfDay, h8]
      omega
    · by_cases h0 : 0 < a.hoursWorked
      · simp [isFullDay, isHalfDay, h8, h0]
        omega
      · simp [isFullDay, isHalfDay, h8, h0]

/-- `countDays` counts exactly the records passing `isFullDay` and
`isHalfDay` respectively. -/
theorem countDays_eq_filter (l : List AttendanceRecord) :
    countDays l = ((l.filter isFullDay).length, (l.filter isHalfDay).length) := by
  simpa using countDays_foldl l (0, 0)

/-- The records with positive hours split exactly into full-day and
half-day records. -/
theorem filter_present_split (l : List AttendanceRecord) :
    (l.filter isPresent).length =
      (l.filter isFullDay).length + (l.filter isHalfDay).length := by
  induction l with
  | nil => simp
  | cons a l ih =>
    simp only [List.filter_cons]
    by_cases h8 : 8 ≤ a.hoursWorked
    · have h0 : 0 < a.hoursWorked := lt_of_lt_of_le (by norm_num) h8
      simp [isFullDay, isHalfDay, isPresent, h8, h0, ih]
      omega
    · by_cases h0 : 0 < a.hoursWorked
      · simp [isFullDay, isHalfDay, isPresent, h8, h0, ih]
        omega
      · simp [isFullDay, isHalfDay, isPresent, h8, h0, ih]

/-- C1: for the default slab table, the tax at the spec's four sample
incomes is exactly 0, 12500, 112500 and 262500. -/
theorem c1_tax_boundary_values :
    calculateAnnualTax 250000 = 0 ∧
    calculateAnnualTax 500000 = 12500 ∧
    calculateAnnualTax 1000000 = 112500 ∧
    calculateAnnualTax 1500000 = 262500 := by
  refine ⟨?_, ?_, ?_, ?_⟩ <;> norm_num [calculateAnnualTax, taxLoop, TAX_SLABS]

/-- C2: with at least one working day, the breakdown fields satisfy the
spec's defining equations simultaneously, and omitting `otherDeductions`
defaults it to 0. -/
theorem c2_breakdown_equations (p : SalaryCalculationParams)
    (h : 1 ≤ p.workingDaysInMonth) :
    (calculateMonthlySalary p).grossMonthly = p.basic + p.hra + p.allowances ∧
    (calculateMonthlySalary p).pf = p.basic * (12/100) ∧
    (calculateMonthlySalary p).dailyWage =
      (calculateMonthlySalary p).grossMonthly / p.workingDaysInMonth ∧
    (calculateMonthlySalary p).totalSalary =
      ((calculateMonthlySalary p).fullDays : ℚ) * (calculateMonthlySalary p).dailyWage +
        ((calculateMonthlySalary p).halfDays : ℚ) * ((calculateMonthlySalary p).dailyWage / 2) ∧
    (calculateMonthlySalary p).tax =
      calculateAnnualTax ((calculateMonthlySalary p).grossMonthly * 12) / 12 ∧
    (calculateMonthlySalary p).netSalary =
      (calculateMonthlySalary p).totalSalary - (calculateMonthlySalary p).tax -
        (calculateMonthlySalary p).pf - (calculateMonthlySalary p).otherDeductions ∧
    (calculateMonthlySalary p).otherDeductions = p.otherDeductions ∧
    (calculateMonthlySalary
      { basic := p.basic
        hra := p.hra
        allowances := p.allowances
        workingDaysInMonth := p.workingDaysInMonth
        attendances := p.attendances }).otherDeductions = 0 :=
  ⟨rfl, rfl, rfl, rfl, rfl, rfl, rfl, rfl⟩

/-- Witness for C2 at a concrete input. -/
theorem c2_breakdown_equations_witness :
    (1:ℚ) ≤ 22 ∧
    (calculateMonthlySalary
      { basic := 50000, hra := 10000, allowances := 5000,
        workingDaysInMonth := 22, attendances := [],
        otherDeductions := 0 }).grossMonthly = 50000 + 10000 + 5000 :=
  ⟨by norm_num,
   (c2_breakdown_equations
     { basic := 50000, hra := 10000, allowances := 5000,
       workingDaysInMonth := 22, attendances := [],
       otherDeductions := 0 } (by norm_num)).1⟩

/-- C3: a record with at least 8 hours is counted as exactly one full
day, one with positive hours below 8 as exactly one half day, and one
with zero hours in neither bucket; in particular 8 hours is a full day,
7.999 a half day and 0 absent. -/
theorem c3_attendance_classification :
    (∀ p : SalaryCalculationParams,
      (calculateMonthlySalary p).fullDays =
        (p.attendances.filter isFullDay).length ∧
      (calculateMonthlySalary p).halfDays =
        (p.attendances.filter isHalfDay).length) ∧
    (∀ a : AttendanceRecord,
      (isFullDay a = true ↔ 8 ≤ a.hoursWorked) ∧
      (isHalfDay a = true ↔ (¬ 8 ≤ a.hoursWorked ∧ 0 < a.hoursWorked))) ∧
    countDays [{ hoursWorked := 8 }] = (1, 0) ∧
    countDays [{ hoursWorked := 7999/1000 }] = (0, 1) ∧
    countDays [{ hoursWorked := 0 }] = (0, 0) := by
  refine ⟨?_, ?_, ?_, ?_, ?_⟩
  · intro p
    have h := countDays_eq_filter p.attendances
    constructor
    · show (countDays p.attendances).1 = _
      rw [h]
    · show (countDays p.attendances).2 = _
      rw [h]
  · intro a
    constructor
    · simp [isFullDay]
    · simp [isHalfDay]
  · norm_num [countDays]
  · norm_num [countDays]
  · norm_num [countDays]

/-- C5: tax and pf are independent of attendance and ad-hoc deductions:
two calls agreeing on basic, hra, allowances and working days return the
same tax (namely the annualised slab tax over 12) and the same pf. -/
theorem c5_tax_pf_noninterference (p q : SalaryCalculationParams)
    (hb : p.basic = q.basic) (hh : p.hra = q.hra)
    (ha : p.allowances = q.allowances)
    (hw : p.workingDaysInMonth = q.workingDaysInMonth) :
    (calculateMonthlySalary p).tax = (calculateMonthlySalary q).tax ∧
    (calculateMonthlySalary p).tax =
      calculateAnnualTax ((p.basic + p.hra + p.allowances) * 12) / 12 ∧
    (calculateMonthlySalary p).pf = (calculateMonthlySalary q).pf := by
  refine ⟨?_, rfl, ?_⟩
  · show calculateAnnualTax ((p.basic + p.hra + p.allowances) * 12) / 12 =
      calculateAnnualTax ((q.basic + q.hra + q.allowances) * 12) / 12
    rw [hb, hh, ha]
  · show p.basic * (12/100) = q.basic * (12/100)
    rw [hb]

/-- Witness for C5: two concrete calls differing only in attendance and
deductions have the same tax and pf. -/
theorem c5_tax_pf_noninterference_witness :
    (calculateMonthlySalary
      { basic := 50000, hra := 10000, allowances := 5000,
        workingDaysInMonth := 22, attendances := [],
        otherDeductions := 0 }).tax =
    (calculateMonthlySalary
      { basic := 50000, hra := 10000, allowances := 5000,
        workingDaysInMonth := 22,
        attendances := [{ hoursWorked := 8 }, { hoursWorked := 3 }],
        otherDeductions := 4321 }).tax :=
  (c5_tax_pf_noninterference
    { basic := 50000, hra := 10000, allowances := 5000,
      workingDaysInMonth := 22, attendances := [], otherDeductions := 0 }
    { basic := 50000, hra := 10000, allowances := 5000,
      workingDaysInMonth := 22,
      attendances := [{ hoursWorked := 8 }, { hoursWorked := 3 }],
      otherDeductions := 4321 }
    rfl rfl rfl rfl).1

/-- C7: with at least one working day and an empty attendance list the
calculator returns zero day counts, zero total salary, and a net salary
of `0 - tax - pf - otherDeductions`. -/
theorem c7_empty_attendance (p : SalaryCalculationParams)
    (hw : 1 ≤ p.workingDaysInMonth) (he : p.attendances = []) :
    (calculateMonthlySalary p).fullDays = 0 ∧
    (calculateMonthlySalary p).halfDays = 0 ∧
    (calculateMonthlySalary p).totalSalary = 0 ∧
    (calculateMonthlySalary p).netSalary =
      0 - (calculateMonthlySalary p).tax - (calculateMonthlySalary p).pf -
        (calculateMonthlySalary p).otherDeductions := by
  have h0 : countDays p.attendances = (0, 0) := by rw [he]; rfl
  have ht : (calculateMonthlySalary p).totalSalary = 0 := by
    show ((countDays p.attendances).1 : ℚ) *
        ((p.basic + p.hra + p.allowances) / p.workingDaysInMonth) +
      ((countDays p.attendances).2 : ℚ) *
        ((p.basic + p.hra + p.allowances) / p.workingDaysInMonth / 2) = 0
    rw [h0]
    norm_num
  refine ⟨?_, ?_, ht, ?_⟩
  · show (countDays p.attendances).1 = 0
    rw [h0]
  · show (countDays p.attendances).2 = 0
    rw [h0]
  · rw [show (calculateMonthlySalary p).netSalary =
        (calculateMonthlySalary p).totalSalary - (calculateMonthlySalary p).tax -
          (calculateMonthlySalary p).pf - (calculateMonthlySalary p).otherDeductions
        from rfl, ht]

/-- Witness for C7 at a concrete input. -/
theorem c7_empty_attendance_witness :
    (calculateMonthlySalary
      { basic := 50000, hra := 10000, allowances := 5000,
        workingDaysInMonth := 22, attendances := [],
        otherDeductions := 1000 }).totalSalary = 0 :=
  (c7_empty_attendance
    { basic := 50000, hra := 10000, allowances := 5000,
      workingDaysInMonth := 22, attendances := [], otherDeductions := 1000 }
    (by norm_num) rfl).2.2.1

/-- C8: the full-day and half-day counts together never exceed the
number of attendance records with positive hours worked. -/
theorem c8_day_counts_bounded (p : SalaryCalculationParams) :
    (calculateMonthlySalary p).fullDays + (calculateMonthlySalary p).halfDays ≤
      (p.attendances.filter isPresent).length := by
  have h := countDays_eq_filter p.attendances
  have hs := filter_present_split p.attendances
  show (countDays p.attendances).1 + (countDays p.attendances).2 ≤ _
  rw [h, hs]

/-- C10: strengthening of C8 to an equality: every record with positive
hours lands in exactly one bucket and records with non-positive hours in
none, so the two counts sum to exactly the number of records with
positive hours. -/
theorem c10_day_counts_exact (p : SalaryCalculationParams) :
    (calculateMonthlySalary p).fullDays + (calculateMonthlySalary p).halfDays =
      (p.attendances.filter isPresent).length := by
  have h := countDays_eq_filter p.attendances
  have hs := filter_present_split p.attendances
  show (countDays p.attendances).1 + (countDays p.attendances).2 = _
  rw [h, hs]

/-- C9: the static slab table is exactly the spec's default table, its
bounded upper bounds are strictly increasing starting above 0, only the
last slab is unbounded, and the rates are non-decreasing. -/
theorem c9_slab_table_invariant :
    TAX_SLABS = specSlabTable ∧
    List.Chain' (· < ·) (0 :: boundedUppers TAX_SLABS) ∧
    TAX_SLABS.dropLast.all (fun s => s.upto.isSome) = true ∧
    (TAX_SLABS.getLast?).map TaxSlab.upto = some none ∧
    List.Chain' (· ≤ ·) (TAX_SLABS.map TaxSlab.rate) := by
  refine ⟨rfl, ?_, rfl, rfl, ?_⟩
  · norm_num [boundedUppers, TAX_SLABS, List.filterMap_cons, List.chain'_cons,
      List.chain'_singleton]
  · norm_num [TAX_SLABS, List.chain'_cons, List.chain'_singleton]

/-- On non-negative inputs the slab loop agrees with the piecewise
closed form obtained by tracing it over the concrete table. -/
theorem calculateAnnualTax_closed (x : ℚ) (hx : 0 ≤ x) :
    calculateAnnualTax x = taxClosedForm x := by
  unfold taxClosedForm
  rcases le_or_lt x 250000 with h1 | h1
  · rw [if_pos h1]
    simp only [calculateAnnualTax, TAX_SLABS, taxLoop]
    rw [show (250000:ℚ) - 0 = 250000 by norm_num, min_eq_left h1, max_eq_right hx]
    simp
  · rw [if_neg (by linarith)]
    rcases le_or_lt x 500000 with h2 | h2
    · rw [if_pos h2]
      simp only [calculateAnnualTax, TAX_SLABS, taxLoop]
      rw [show (250000:ℚ) - 0 = 250000 by norm_num,
        min_eq_right (by linarith), max_eq_right (by norm_num),
        if_neg (by linarith),
        show (500000:ℚ) - 250000 = 250000 by norm_num,
        min_eq_left (by linarith), max_eq_right (by linarith),
        if_pos (by linarith)]
      ring
    · rw [if_neg (by linarith)]
      rcases le_or_lt x 1000000 with h3 | h3
      · rw [if_pos h3]
        simp only [calculateAnnualTax, TAX_SLABS, taxLoop]
        rw [show (250000:ℚ) - 0 = 250000 by norm_num,
          min_eq_right (by linarith), max_eq_right (by norm_num),
          if_neg (by linarith),
          show (500000:ℚ) - 250000 = 250000 by norm_num,
          min_eq_right (by linarith), max_eq_right (by norm_num),
          if_neg (by linarith),
          show (1000000:ℚ) - 500000 = 500000 by norm_num,
          min_eq_left (by linarith), max_eq_right (by linarith),
          if_pos (by linarith)]
        ring
      · rw [if_neg (by linarith)]
        simp only [calculateAnnualTax, TAX_SLABS, taxLoop]
        rw [show (250000:ℚ) - 0 = 250000 by norm_num,
          min_eq_right (by linarith), max_eq_right (by norm_num),
          if_neg (by linarith),
          show (500000:ℚ) - 250000 = 250000 by norm_num,
          min_eq_right (by linarith), max_eq_right (by norm_num),
          if_neg (by linarith),
          show (1000000:ℚ) - 500000 = 500000 by norm_num,
          min_eq_right (by linarith), max_eq_right (by norm_num),
          if_neg (by linarith)]
        ring

/-- The closed form is monotone. -/
theorem taxClosedForm_mono (x y : ℚ) (hxy : x ≤ y) :
    taxClosedForm x ≤ taxClosedForm y := by
  unfold taxClosedForm
  split_ifs <;> linarith

/-- C4: the tax function is non-decreasing on non-negative inputs, and
at each bounded slab boundary it equals the sum over the lower brackets
of width times rate. -/
theorem c4_tax_monotone_and_boundaries :
    (∀ x y : ℚ, 0 ≤ x → x ≤ y → calculateAnnualTax x ≤ calculateAnnualTax y) ∧
    calculateAnnualTax 250000 = (250000 - 0) * 0 ∧
    calculateAnnualTax 500000 = (250000 - 0) * 0 + (500000 - 250000) * (5/100) ∧
    calculateAnnualTax 1000000 =
      (250000 - 0) * 0 + (500000 - 250000) * (5/100) +
        (1000000 - 500000) * (2/10) := by
  refine ⟨?_, ?_, ?_, ?_⟩
  · intro x y hx hxy
    rw [calculateAnnualTax_closed x hx, calculateAnnualTax_closed y (le_trans hx hxy)]
    exact taxClosedForm_mono x y hxy
  · norm_num [calculateAnnualTax, taxLoop, TAX_SLABS]
  · norm_num [calculateAnnualTax, taxLoop, TAX_SLABS]
  · norm_num [calculateAnnualTax, taxLoop, TAX_SLABS]

/-- Witness for C4 at concrete inputs. -/
theorem c4_tax_monotone_and_boundaries_witness :
    (0:ℚ) ≤ 300000 ∧ (300000:ℚ) ≤ 1200000 ∧
    calculateAnnualTax 300000 ≤ calculateAnnualTax 1200000 :=
  ⟨by norm_num, by norm_num,
   c4_tax_monotone_and_boundaries.1 300000 1200000 (by norm_num) (by norm_num)⟩

/-- The full breakdown of the spec's end-to-end input, evaluated. -/
theorem scenarioBreakdown_eq :
    calculateMonthlySalary scenarioParams =
      { grossMonthly := 65000
        fullDays := 20
        halfDays := 2
        dailyWage := 65000/22
        totalSalary := 682500/11
        tax := 68500/12
        pf := 6000
        otherDeductions := 1000
        netSalary := 1628125/33 } := by
  have hc : countDays (List.replicate 20 ({ hoursWorked := 8 } : AttendanceRecord) ++
      List.replicate 2 { hoursWorked := 4 }) = (20, 2) := by
    norm_num [countDays, List.replicate_succ]
  simp only [calculateMonthlySalary, scenarioParams, hc]
  norm_num [calculateAnnualTax, taxLoop, TAX_SLABS]

/-- C6 counterexample: on the spec's end-to-end input the code returns
totalSalary 682500/11 ≈ 62045.455 and netSalary 1628125/33 ≈ 49337.12,
each more than 90 away from the claim's 61954.545 and 49246.21, while
the claim's other approximate values are accurate to within 0.01. -/
theorem c6_counterexample_totals :
    (calculateMonthlySalary scenarioParams).totalSalary = 682500/11 ∧
    |(682500/11 : ℚ) - 61954545/1000| > 90 ∧
    (calculateMonthlySalary scenarioParams).netSalary = 1628125/33 ∧
    |(1628125/33 : ℚ) - 4924621/100| > 90 := by
  rw [scenarioBreakdown_eq]
  refine ⟨rfl, ?_, rfl, ?_⟩ <;> rw [abs_of_pos (by norm_num)] <;> norm_num

/-- C6 amended: on the end-to-end input with basic 50000, hra 10000,
allowances 5000, 22 working days, 20 full-day and 2 half-day records
and 1000 other deductions, the code returns grossMonthly 65000, pf
6000, dailyWage 65000/22 ≈ 2954.545, totalSalary 682500/11 ≈ 62045.455,
tax 68500/12 ≈ 5708.33 and netSalary 1628125/33 ≈ 49337.12. -/
theorem c6_end_to_end :
    (calculateMonthlySalary scenarioParams).grossMonthly = 65000 ∧
    (calculateMonthlySalary scenarioParams).pf = 6000 ∧
    (calculateMonthlySalary scenarioParams).fullDays = 20 ∧
    (calculateMonthlySalary scenarioParams).halfDays = 2 ∧
    (calculateMonthlySalary scenarioParams).dailyWage = 65000/22 ∧
    (calculateMonthlySalary scenarioParams).totalSalary = 682500/11 ∧
    (calculateMonthlySalary scenarioParams).tax = 68500/12 ∧
    (calculateMonthlySalary scenarioParams).netSalary = 1628125/33 := by
  rw [scenarioBreakdown_eq]
  exact ⟨rfl, rfl, rfl, rfl, rfl, rfl, rfl, rfl⟩
